import Mathlib

/-!
Shallow embedding of the CE-tracker designation requirement calculators
(`designation_helpers.py`) together with the data model (`models.py`).
Hours are modelled as rationals, dates as proleptic Gregorian calendar dates
with integer years, mirroring Python `datetime.date` semantics.
-/

/-- A calendar date, mirroring Python `datetime.date` (year, month, day). -/
structure Date where
  year : Int
  month : Nat
  day : Nat
deriving DecidableEq, Repr

/-- Gregorian leap-year rule, as implemented by Python's `datetime`. -/
def isLeap (y : Int) : Bool :=
  y % 4 == 0 && (y % 100 != 0 || y % 400 == 0)

/-- Number of days in a month of a given year. -/
def daysInMonth (y : Int) (m : Nat) : Nat :=
  if m == 2 then (if isLeap y then 29 else 28)
  else if m == 4 || m == 6 || m == 9 || m == 11 then 30
  else 31

/-- Lexicographic date comparison, the order Python uses on `date` values. -/
def dle (a b : Date) : Bool :=
  a.year < b.year ||
    (a.year == b.year && (a.month < b.month ||
      (a.month == b.month && a.day ≤ b.day)))

/-- Strict lexicographic date comparison. -/
def dlt (a b : Date) : Bool :=
  a.year < b.year ||
    (a.year == b.year && (a.month < b.month ||
      (a.month == b.month && a.day < b.day)))

/-- The day before a given date (Python `date - timedelta(days=1)`). -/
def predDate (d : Date) : Date :=
  if 1 < d.day then ⟨d.year, d.month, d.day - 1⟩
  else if 1 < d.month then ⟨d.year, d.month - 1, daysInMonth d.year (d.month - 1)⟩
  else ⟨d.year - 1, 12, 31⟩

/-- Days in the months of year `y` strictly before month `m`. -/
def daysBeforeMonth (y : Int) (m : Nat) : Nat :=
  (List.range (m - 1)).foldl (fun a i => a + daysInMonth y (i + 1)) 0

/-- Rata-die ordinal of a date, as Python's `date.toordinal` computes it;
date subtraction `(d2 - d1).days` is the difference of ordinals. -/
def toOrdinal (d : Date) : Int :=
  365 * (d.year - 1) + (d.year - 1).fdiv 4 - (d.year - 1).fdiv 100
    + (d.year - 1).fdiv 400 + daysBeforeMonth d.year d.month + d.day

/-- Validity of a date with respect to Python's `datetime` constructor. -/
def Date.validb (d : Date) : Bool :=
  1 ≤ d.year && d.year ≤ 9999 && 1 ≤ d.month && d.month ≤ 12 &&
    1 ≤ d.day && d.day ≤ daysInMonth d.year d.month

/-- The Python `datetime(y, m, d)` constructor: a valid date, or the
`ValueError` the constructor raises, modelled as `none`. -/
def mkDate (y : Int) (m d : Nat) : Option Date :=
  if Date.validb ⟨y, m, d⟩ then some ⟨y, m, d⟩ else none

/-- One CE record (`CERecord` in `models.py`); only the fields the
calculators consume. `category` is nullable; `title` is read through
`(r.title or '')` in the code, so it is modelled as optional too. -/
structure CERecord where
  user_id : Nat
  title : Option String
  hours : ℚ
  date_completed : Date
  category : Option String
  is_napfa_approved : Bool
  is_ethics_course : Bool
deriving DecidableEq, Repr

/-- The user fields the calculators consume (`User` in `models.py`). -/
structure User where
  id : Nat
  is_napfa_member : Bool
  napfa_join_date : Option Date
deriving DecidableEq, Repr

/-- A designation assignment (`UserDesignation` in `models.py`);
`created_at` is modelled by its date portion, as the code only uses
`created_at.date()`. -/
structure UserDesignation where
  designation : String
  birth_month : Option Nat
  state : Option String
  created_at : Option Date
deriving DecidableEq, Repr

/-- Whether the character list `pre` starts the character list given second. -/
def listStartsWith : List Char → List Char → Bool
  | [], _ => true
  | _ :: _, [] => false
  | a :: as, b :: bs => a == b && listStartsWith as bs

/-- Whether `needle` occurs as a contiguous sublist of the second list. -/
def hasSubstring (needle : List Char) : List Char → Bool
  | [] => listStartsWith needle []
  | c :: rest => listStartsWith needle (c :: rest) || hasSubstring needle rest

/-- Lower-casing of a string, character by character (Python `s.lower()`;
the strings involved are ASCII). -/
def lowerChars (s : String) : List Char :=
  s.data.map Char.toLower

/-- Python `'ethics' in s.lower()`. -/
def strHasEthics (s : String) : Bool :=
  hasSubstring "ethics".data (lowerChars s)

/-- The ethics predicate used by CFP/EA/IAR:
`'ethics' in (r.category or '').lower() or 'ethics' in (r.title or '').lower()`. -/
def isEthicsRec (r : CERecord) : Bool :=
  strHasEthics (r.category.getD "") || strHasEthics (r.title.getD "")

/-- The record query all calculators issue:
`CERecord.query.filter_by(user_id=user.id).filter(date_completed >= ps, date_completed <= pe)`.
The database is modelled as the list of all CE records. -/
def periodRecords (db : List CERecord) (uid : Nat) (ps pe : Date) : List CERecord :=
  db.filter (fun r => r.user_id == uid && dle ps r.date_completed && dle r.date_completed pe)

/-- Python `sum(r.hours for r in recs)`. -/
def totalHours (recs : List CERecord) : ℚ :=
  (recs.map (fun r => r.hours)).sum

/-- Python `sum(r.hours for r in recs if <ethics predicate>)`. -/
def ethicsHours (recs : List CERecord) : ℚ :=
  totalHours (recs.filter isEthicsRec)

/-- Python `sum(r.hours for r in recs if r.is_napfa_approved)`. -/
def napfaApprovedHours (recs : List CERecord) : ℚ :=
  totalHours (recs.filter (fun r => r.is_napfa_approved))

/-- The result dictionary returned by a designation calculator; keys that are
only present for some designations are modelled as `Option` fields. -/
structure DesigResult where
  designation : String
  total_required : ℚ
  total_earned : ℚ
  total_remaining : ℚ
  total_percentage : ℚ
  ethics_required : Option ℚ := none
  ethics_earned : Option ℚ := none
  ethics_remaining : Option ℚ := none
  ethics_percentage : Option ℚ := none
  yearly_minimum : Option ℚ := none
  current_year_hours : Option ℚ := none
  yearly_percentage : Option ℚ := none
  state : Option String := none
  admin_fee : Option ℚ := none
  volunteer_hours_required : Option ℚ := none
  period_start : Date
  period_end : Date
  is_complete : Bool
deriving DecidableEq, Repr

/-- The result dictionary returned by `calculate_napfa_requirements`. -/
structure NapfaResult where
  total_required : ℚ
  total_earned : ℚ
  total_remaining : ℚ
  total_percentage : ℚ
  napfa_approved_required : ℚ
  napfa_approved_earned : ℚ
  napfa_approved_remaining : ℚ
  napfa_approved_percentage : ℚ
  ethics_required : Bool
  ethics_completed : Bool
  cycle_start : Date
  cycle_end : Date
  is_complete : Bool
deriving DecidableEq, Repr

/-- The CFP reporting period (lines 14-19 of `designation_helpers.py`). -/
def cfpPeriod (now : Date) (birth_month : Nat) : Date × Date :=
  if now.month < birth_month then
    (⟨now.year - 2, birth_month, 1⟩, predDate ⟨now.year, birth_month, 1⟩)
  else
    (⟨now.year - 1, birth_month, 1⟩, predDate ⟨now.year + 1, birth_month, 1⟩)

/-- The body of `calculate_cfp_requirements` after its guards. -/
def cfpResult (now : Date) (uid : Nat) (birth_month : Nat) (db : List CERecord) :
    DesigResult :=
  let p := cfpPeriod now birth_month
  let ce_records := periodRecords db uid p.1 p.2
  let total_hours := totalHours ce_records
  let ethics_hours := ethicsHours ce_records
  { designation := "CFP"
    total_required := 30
    total_earned := total_hours
    total_remaining := max 0 (30 - total_hours)
    total_percentage := min 100 (max 0 (total_hours / 30 * 100))
    ethics_required := some 2
    ethics_earned := some (min ethics_hours 2)
    ethics_remaining := some (max 0 (2 - ethics_hours))
    ethics_percentage := some (min 100 (max 0 (ethics_hours / 2 * 100)))
    period_start := p.1
    period_end := p.2
    is_complete := decide (total_hours ≥ 30 ∧ ethics_hours ≥ 2) }

/-- Embedding of `calculate_cfp_requirements`. Returns `none` when the
assignment is absent, has a different code, or has a falsy `birth_month`. -/
def calculate_cfp_requirements (now : Date) (user : User)
    (udOpt : Option UserDesignation) (db : List CERecord) : Option DesigResult :=
  match udOpt with
  | none => none
  | some ud =>
    if ud.designation ≠ "CFP" then none
    else match ud.birth_month with
      | none => none
      | some bm => if bm = 0 then none else some (cfpResult now user.id bm db)

/-- The guard shape shared by all designation calculators: `None` for an
absent assignment, `None` for a mismatched designation code, otherwise the
calculator body. -/
def guardedCalc (name : String) (udOpt : Option UserDesignation)
    (body : UserDesignation → DesigResult) : Option DesigResult :=
  match udOpt with
  | none => none
  | some ud => if ud.designation ≠ name then none else some (body ud)

/-- The body of `calculate_cpa_requirements` after its guards
(calendar-year period, 40 hours, carries the assignment's `state`). -/
def cpaResult (now : Date) (uid : Nat) (st : Option String) (db : List CERecord) :
    DesigResult :=
  let period_start : Date := ⟨now.year, 1, 1⟩
  let period_end : Date := ⟨now.year, 12, 31⟩
  let ce_records := periodRecords db uid period_start period_end
  let total_hours := totalHours ce_records
  let hours_required : ℚ := 40
  { designation := "CPA"
    state := st
    total_required := hours_required
    total_earned := total_hours
    total_remaining := max 0 (hours_required - total_hours)
    total_percentage := min 100 (max 0 (total_hours / hours_required * 100))
    period_start := period_start
    period_end := period_end
    is_complete := decide (total_hours ≥ hours_required) }

/-- Embedding of `calculate_cpa_requirements`. -/
def calculate_cpa_requirements (now : Date) (user : User)
    (udOpt : Option UserDesignation) (db : List CERecord) : Option DesigResult :=
  guardedCalc "CPA" udOpt (fun ud => cpaResult now user.id ud.state db)

/-- The body of `calculate_ea_requirements` after its guards (3-year
calendar cycle, 72 hours, 16-hour yearly minimum, 2 ethics hours). -/
def eaResult (now : Date) (uid : Nat) (db : List CERecord) : DesigResult :=
  let cycle_start_year := now.year.fdiv 3 * 3
  let period_start : Date := ⟨cycle_start_year, 1, 1⟩
  let period_end : Date := ⟨cycle_start_year + 2, 12, 31⟩
  let ce_records := periodRecords db uid period_start period_end
  let current_year_start : Date := ⟨now.year, 1, 1⟩
  let current_year_end : Date := ⟨now.year, 12, 31⟩
  let current_year_records := ce_records.filter
    (fun r => dle current_year_start r.date_completed && dle r.date_completed current_year_end)
  let total_hours := totalHours ce_records
  let cy_hours := totalHours current_year_records
  let ethics_hours := ethicsHours ce_records
  { designation := "EA"
    total_required := 72
    total_earned := total_hours
    total_remaining := max 0 (72 - total_hours)
    total_percentage := min 100 (max 0 (total_hours / 72 * 100))
    yearly_minimum := some 16
    current_year_hours := some cy_hours
    yearly_percentage := some (min 100 (max 0 (cy_hours / 16 * 100)))
    ethics_required := some 2
    ethics_earned := some (min ethics_hours 2)
    ethics_remaining := some (max 0 (2 - ethics_hours))
    ethics_percentage := some (min 100 (max 0 (ethics_hours / 2 * 100)))
    period_start := period_start
    period_end := period_end
    is_complete := decide (total_hours ≥ 72 ∧ cy_hours ≥ 16 ∧ ethics_hours ≥ 2) }

/-- Embedding of `calculate_ea_requirements`. -/
def calculate_ea_requirements (now : Date) (user : User)
    (udOpt : Option UserDesignation) (db : List CERecord) : Option DesigResult :=
  guardedCalc "EA" udOpt (fun _ => eaResult now user.id db)

/-- The CEP/ECA period index:
`int(((current_date - designation_date).days / 365.25) // 2)`. -/
def cepiPeriodNumber (now designation_date : Date) : ℤ :=
  let days : ℤ := toOrdinal now - toOrdinal designation_date
  let years_since : ℚ := (days : ℚ) / 365.25
  ⌊years_since / 2⌋

/-- The CEP/ECA aggregation given the two raw period boundary dates: the
period end is the day before `pe`, clamped to `now` when still in the
future. -/
def cepiResult (designation_name : String) (now : Date) (uid : Nat)
    (period_start pe : Date) (db : List CERecord) : DesigResult :=
  let period_end0 := predDate pe
  let period_end := if dlt now period_end0 then now else period_end0
  let ce_records := periodRecords db uid period_start period_end
  let total_hours := totalHours ce_records
  { designation := designation_name
    total_required := 30
    total_earned := total_hours
    total_remaining := max 0 (30 - total_hours)
    total_percentage := min 100 (max 0 (total_hours / 30 * 100))
    period_start := period_start
    period_end := period_end
    is_complete := decide (total_hours ≥ 30)
    admin_fee := some 250
    volunteer_hours_required := some 15 }

/-- The CEP/ECA computation after the guards: builds both period boundary
dates with the real `datetime` constructor (a `ValueError` is modelled as
`.error ()`). -/
def cepiBuild (designation_name : String) (now : Date) (uid : Nat)
    (designation_date : Date) (db : List CERecord) : Except Unit DesigResult :=
  match mkDate (designation_date.year + cepiPeriodNumber now designation_date * 2)
      designation_date.month designation_date.day with
  | none => .error ()
  | some period_start =>
    match mkDate (designation_date.year + (cepiPeriodNumber now designation_date + 1) * 2)
        designation_date.month designation_date.day with
    | none => .error ()
    | some pe => .ok (cepiResult designation_name now uid period_start pe db)

/-- Embedding of `_calculate_cepi_requirements` (shared CEP/ECA logic).
The anchor is the assignment's creation date, falling back to `now`. -/
def calculate_cepi_requirements (now : Date) (user : User)
    (udOpt : Option UserDesignation) (db : List CERecord)
    (designation_name : String) : Except Unit (Option DesigResult) :=
  match udOpt with
  | none => .ok none
  | some ud =>
    if ud.designation ≠ designation_name then .ok none
    else (cepiBuild designation_name now user.id (ud.created_at.getD now) db).map some

/-- Embedding of `calculate_cep_requirements`. -/
def calculate_cep_requirements (now : Date) (user : User)
    (udOpt : Option UserDesignation) (db : List CERecord) :
    Except Unit (Option DesigResult) :=
  calculate_cepi_requirements now user udOpt db "CEP"

/-- Embedding of `calculate_eca_requirements`. -/
def calculate_eca_requirements (now : Date) (user : User)
    (udOpt : Option UserDesignation) (db : List CERecord) :
    Except Unit (Option DesigResult) :=
  calculate_cepi_requirements now user udOpt db "ECA"

/-- The aggregation body shared (textually) by the simple single-requirement
calculators (CFA, CLU, ChFC, IWI, CRPS, RICP, CDFA, AIF): total hours over
the period against a single required amount. -/
def simpleAggregate (designation_name : String) (required : ℚ)
    (period_start period_end : Date) (uid : Nat) (db : List CERecord) : DesigResult :=
  let ce_records := periodRecords db uid period_start period_end
  let total_hours := totalHours ce_records
  { designation := designation_name
    total_required := required
    total_earned := total_hours
    total_remaining := max 0 (required - total_hours)
    total_percentage := min 100 (max 0 (total_hours / required * 100))
    period_start := period_start
    period_end := period_end
    is_complete := decide (total_hours ≥ required) }

/-- The even/odd 2-year cycle start used by CLU, ChFC, IWI, CRPS, RICP:
`current_year - 1 if current_year % 2 == 0 else current_year`. -/
def evenOddCycleStart (y : Int) : Int :=
  if y % 2 == 0 then y - 1 else y

/-- Embedding of `calculate_cfa_requirements` (20 PL credits per calendar year). -/
def calculate_cfa_requirements (now : Date) (user : User)
    (udOpt : Option UserDesignation) (db : List CERecord) : Option DesigResult :=
  guardedCalc "CFA" udOpt
    (fun _ => simpleAggregate "CFA" 20 ⟨now.year, 1, 1⟩ ⟨now.year, 12, 31⟩ user.id db)

/-- Embedding of `calculate_clu_requirements` (30 hours every 2 years). -/
def calculate_clu_requirements (now : Date) (user : User)
    (udOpt : Option UserDesignation) (db : List CERecord) : Option DesigResult :=
  guardedCalc "CLU" udOpt
    (fun _ => simpleAggregate "CLU" 30 ⟨evenOddCycleStart now.year, 1, 1⟩
      ⟨evenOddCycleStart now.year + 1, 12, 31⟩ user.id db)

/-- Embedding of `calculate_chfc_requirements` (30 hours every 2 years). -/
def calculate_chfc_requirements (now : Date) (user : User)
    (udOpt : Option UserDesignation) (db : List CERecord) : Option DesigResult :=
  guardedCalc "ChFC" udOpt
    (fun _ => simpleAggregate "ChFC" 30 ⟨evenOddCycleStart now.year, 1, 1⟩
      ⟨evenOddCycleStart now.year + 1, 12, 31⟩ user.id db)

/-- Embedding of `_calculate_iwi_requirements` (shared CIMA/CIMC/CPWA logic). -/
def calculate_iwi_requirements (now : Date) (user : User)
    (udOpt : Option UserDesignation) (db : List CERecord)
    (designation_name : String) (required_hours : ℚ) : Option DesigResult :=
  guardedCalc designation_name udOpt
    (fun _ => simpleAggregate designation_name required_hours
      ⟨evenOddCycleStart now.year, 1, 1⟩
      ⟨evenOddCycleStart now.year + 1, 12, 31⟩ user.id db)

/-- Embedding of `calculate_cima_requirements`. -/
def calculate_cima_requirements (now : Date) (user : User)
    (udOpt : Option UserDesignation) (db : List CERecord) : Option DesigResult :=
  calculate_iwi_requirements now user udOpt db "CIMA" 40

/-- Embedding of `calculate_cimc_requirements`. -/
def calculate_cimc_requirements (now : Date) (user : User)
    (udOpt : Option UserDesignation) (db : List CERecord) : Option DesigResult :=
  calculate_iwi_requirements now user udOpt db "CIMC" 40

/-- Embedding of `calculate_cpwa_requirements`. -/
def calculate_cpwa_requirements (now : Date) (user : User)
    (udOpt : Option UserDesignation) (db : List CERecord) : Option DesigResult :=
  calculate_iwi_requirements now user udOpt db "CPWA" 40

/-- Embedding of `calculate_crps_requirements` (16 hours every 2 years). -/
def calculate_crps_requirements (now : Date) (user : User)
    (udOpt : Option UserDesignation) (db : List CERecord) : Option DesigResult :=
  guardedCalc "CRPS" udOpt
    (fun _ => simpleAggregate "CRPS" 16 ⟨evenOddCycleStart now.year, 1, 1⟩
      ⟨evenOddCycleStart now.year + 1, 12, 31⟩ user.id db)

/-- Embedding of `calculate_ricp_requirements` (30 hours every 2 years). -/
def calculate_ricp_requirements (now : Date) (user : User)
    (udOpt : Option UserDesignation) (db : List CERecord) : Option DesigResult :=
  guardedCalc "RICP" udOpt
    (fun _ => simpleAggregate "RICP" 30 ⟨evenOddCycleStart now.year, 1, 1⟩
      ⟨evenOddCycleStart now.year + 1, 12, 31⟩ user.id db)

/-- Embedding of `calculate_cdfa_requirements` (15 hours per calendar year). -/
def calculate_cdfa_requirements (now : Date) (user : User)
    (udOpt : Option UserDesignation) (db : List CERecord) : Option DesigResult :=
  guardedCalc "CDFA" udOpt
    (fun _ => simpleAggregate "CDFA" 15 ⟨now.year, 1, 1⟩ ⟨now.year, 12, 31⟩ user.id db)

/-- Embedding of `calculate_aif_requirements` (6 hours per calendar year). -/
def calculate_aif_requirements (now : Date) (user : User)
    (udOpt : Option UserDesignation) (db : List CERecord) : Option DesigResult :=
  guardedCalc "AIF" udOpt
    (fun _ => simpleAggregate "AIF" 6 ⟨now.year, 1, 1⟩ ⟨now.year, 12, 31⟩ user.id db)

/-- The body of `calculate_iar_requirements` after its guards
(calendar-year period, 12 hours total including 6 ethics). -/
def iarResult (now : Date) (uid : Nat) (db : List CERecord) : DesigResult :=
  let period_start : Date := ⟨now.year, 1, 1⟩
  let period_end : Date := ⟨now.year, 12, 31⟩
  let ce_records := periodRecords db uid period_start period_end
  let total_hours := totalHours ce_records
  let ethics_hours := ethicsHours ce_records
  let required : ℚ := 12
  let ethics_required : ℚ := 6
  { designation := "IAR"
    total_required := required
    total_earned := total_hours
    total_remaining := max 0 (required - total_hours)
    total_percentage := min 100 (max 0 (total_hours / required * 100))
    ethics_required := some ethics_required
    ethics_earned := some (min ethics_hours ethics_required)
    ethics_remaining := some (max 0 (ethics_required - ethics_hours))
    ethics_percentage := some (min 100 (max 0 (ethics_hours / ethics_required * 100)))
    period_start := period_start
    period_end := period_end
    is_complete := decide (total_hours ≥ required ∧ ethics_hours ≥ ethics_required) }

/-- Embedding of `calculate_iar_requirements`. -/
def calculate_iar_requirements (now : Date) (user : User)
    (udOpt : Option UserDesignation) (db : List CERecord) : Option DesigResult :=
  guardedCalc "IAR" udOpt (fun _ => iarResult now user.id db)

/-- The uniform calculator signature used by the registry. Calculators that
cannot raise are wrapped into the `Except` monad with `.ok`. -/
abbrev CalcFun :=
  Date → User → Option UserDesignation → List CERecord → Except Unit (Option DesigResult)

/-- Embedding of the `DESIGNATION_CALCULATORS` dictionary: designation code
to calculator; absent codes (e.g. CLE) map to `none`. -/
def DESIGNATION_CALCULATORS (code : String) : Option CalcFun :=
  if code == "CFP" then some (fun now u ud db => .ok (calculate_cfp_requirements now u ud db))
  else if code == "CPA" then some (fun now u ud db => .ok (calculate_cpa_requirements now u ud db))
  else if code == "EA" then some (fun now u ud db => .ok (calculate_ea_requirements now u ud db))
  else if code == "CEP" then some calculate_cep_requirements
  else if code == "ECA" then some calculate_eca_requirements
  else if code == "CFA" then some (fun now u ud db => .ok (calculate_cfa_requirements now u ud db))
  else if code == "CLU" then some (fun now u ud db => .ok (calculate_clu_requirements now u ud db))
  else if code == "ChFC" then some (fun now u ud db => .ok (calculate_chfc_requirements now u ud db))
  else if code == "CIMA" then some (fun now u ud db => .ok (calculate_cima_requirements now u ud db))
  else if code == "CIMC" then some (fun now u ud db => .ok (calculate_cimc_requirements now u ud db))
  else if code == "CPWA" then some (fun now u ud db => .ok (calculate_cpwa_requirements now u ud db))
  else if code == "CRPS" then some (fun now u ud db => .ok (calculate_crps_requirements now u ud db))
  else if code == "RICP" then some (fun now u ud db => .ok (calculate_ricp_requirements now u ud db))
  else if code == "CDFA" then some (fun now u ud db => .ok (calculate_cdfa_requirements now u ud db))
  else if code == "AIF" then some (fun now u ud db => .ok (calculate_aif_requirements now u ud db))
  else if code == "IAR" then some (fun now u ud db => .ok (calculate_iar_requirements now u ud db))
  else none

/-- The orchestrator's loop: look up each assignment's calculator, invoke
it, and append non-null results; a raised error propagates. -/
def orchGo (now : Date) (user : User) (db : List CERecord) :
    List UserDesignation → List DesigResult → Except Unit (List DesigResult)
  | [], requirements => .ok requirements
  | ud :: rest, requirements =>
    match DESIGNATION_CALCULATORS ud.designation with
    | none => orchGo now user db rest requirements
    | some c =>
      match c now user (some ud) db with
      | .error e => .error e
      | .ok none => orchGo now user db rest requirements
      | .ok (some req) => orchGo now user db rest (requirements ++ [req])

/-- Embedding of `calculate_designation_requirements` (the orchestrator). -/
def calculate_designation_requirements (now : Date) (user : User)
    (user_designations : List UserDesignation) (db : List CERecord) :
    Except Unit (List DesigResult) :=
  orchGo now user db user_designations []

/-- The NAPFA 2-year cycle start year: the current year if even, else the
year before. -/
def napfaCycleStartYear (y : Int) : Int :=
  if y % 2 == 0 then y else y - 1

/-- The body of `calculate_napfa_requirements` after its guards: the 2-year
even/odd cycle and the join-date-tiered thresholds. -/
def napfaResult (now : Date) (uid : Nat) (join_date : Date) (db : List CERecord) :
    NapfaResult :=
  let cycle_start_year := napfaCycleStartYear now.year
  let cycle_end_year := cycle_start_year + 1
  let cycle_start : Date := ⟨cycle_start_year, 1, 1⟩
  let cycle_end : Date := ⟨cycle_end_year, 12, 31⟩
  let reqs : ℚ × ℚ :=
    if dle join_date ⟨cycle_start_year, 6, 30⟩ then (60, 30)
    else if dle join_date ⟨cycle_start_year, 12, 31⟩ then (45, 30)
    else if dle join_date ⟨cycle_end_year, 6, 30⟩ then (30, 30)
    else (15, 15)
  let total_required := reqs.1
  let napfa_approved_required := reqs.2
  let ce_records := periodRecords db uid cycle_start cycle_end
  let total_hours := totalHours ce_records
  let napfa_approved_hours := napfaApprovedHours ce_records
  let ethics_completed := ce_records.any (fun r => r.is_ethics_course)
  { total_required := total_required
    total_earned := total_hours
    total_remaining := max 0 (total_required - total_hours)
    total_percentage := min 100 (max 0
      (if total_required ≠ 0 then total_hours / total_required * 100 else 0))
    napfa_approved_required := napfa_approved_required
    napfa_approved_earned := napfa_approved_hours
    napfa_approved_remaining := max 0 (napfa_approved_required - napfa_approved_hours)
    napfa_approved_percentage := min 100 (max 0
      (if napfa_approved_required ≠ 0 then
        napfa_approved_hours / napfa_approved_required * 100 else 0))
    ethics_required := true
    ethics_completed := ethics_completed
    cycle_start := cycle_start
    cycle_end := cycle_end
    is_complete := decide (total_hours ≥ total_required ∧
      napfa_approved_hours ≥ napfa_approved_required) && ethics_completed }

/-- Embedding of `calculate_napfa_requirements`: `none` when the user is
not a NAPFA member or has no join date; otherwise tiered requirements from
the join date's position in the current cycle. -/
def calculate_napfa_requirements (now : Date) (user : User) (db : List CERecord) :
    Option NapfaResult :=
  if !user.is_napfa_member then none else
  match user.napfa_join_date with
  | none => none
  | some join_date => some (napfaResult now user.id join_date db)

/-- Fixture: calendar date 2025-05-01. -/
def dNowMay : Date := ⟨2025, 5, 1⟩

/-- Fixture: calendar date 2025-07-01. -/
def dNowJul : Date := ⟨2025, 7, 1⟩

/-- Fixture: calendar date 2025-06-01. -/
def dNowJun : Date := ⟨2025, 6, 1⟩

/-- Fixture: a NAPFA member with id 1 who joined on 2024-04-01. -/
def cUser : User := ⟨1, true, some ⟨2024, 4, 1⟩⟩

/-- Fixture: a CFP assignment with birth month June. -/
def udCFP : UserDesignation := ⟨"CFP", some 6, none, none⟩

/-- Fixture: a CEP assignment created on 2023-03-10. -/
def udCEP : UserDesignation := ⟨"CEP", none, none, some ⟨2023, 3, 10⟩⟩

/-- Fixture: a CEP assignment created on leap day 2024-02-29. -/
def udCEPLeap : UserDesignation := ⟨"CEP", none, none, some ⟨2024, 2, 29⟩⟩

/-- Fixture: a CLE assignment (no calculator is registered for CLE). -/
def udCLE : UserDesignation := ⟨"CLE", none, none, none⟩

/-- Fixture: a CFP assignment with no birth month. -/
def udCFPnoBM : UserDesignation := ⟨"CFP", none, none, none⟩

/-- Fixture database: user 1 has an in-window 3-hour ethics record, an
in-window 5-hour plain record, and an out-of-window record; user 2 has an
unrelated record. Windows refer to the CFP period for birth month 6 as of
2025. -/
def dbC7 : List CERecord :=
  [⟨1, some "Ethics in Planning", 3, ⟨2025, 1, 15⟩, some "Ethics", false, false⟩,
   ⟨1, some "Tax Update", 5, ⟨2024, 7, 1⟩, none, true, true⟩,
   ⟨1, some "Old Course", 4, ⟨2020, 1, 1⟩, none, false, false⟩,
   ⟨2, some "Other User Ethics", 9, ⟨2025, 1, 15⟩, some "Ethics", false, false⟩]

/-- Inversion for the shared guard: a returned result comes from a present
assignment whose code matches, and equals the calculator body. -/
theorem guardedCalc_inv {name : String} {udOpt : Option UserDesignation}
    {body : UserDesignation → DesigResult} {r : DesigResult}
    (h : guardedCalc name udOpt body = some r) :
    ∃ ud, udOpt = some ud ∧ ud.designation = name ∧ r = body ud := by
  cases udOpt with
  | none => simp [guardedCalc] at h
  | some ud =>
    have h2 : (if ud.designation ≠ name then none else some (body ud)) = some r := h
    by_cases hd : ud.designation = name
    · rw [if_neg (fun hne => hne hd)] at h2
      exact ⟨ud, rfl, hd, (Option.some.inj h2).symm⟩
    · rw [if_pos hd] at h2
      exact absurd h2 (by simp)

/-- Inversion for the CFP calculator. -/
theorem cfp_inv {now : Date} {u : User} {udOpt : Option UserDesignation}
    {db : List CERecord} {r : DesigResult}
    (h : calculate_cfp_requirements now u udOpt db = some r) :
    ∃ ud bm, udOpt = some ud ∧ ud.designation = "CFP" ∧
      ud.birth_month = some bm ∧ bm ≠ 0 ∧ r = cfpResult now u.id bm db := by
  cases udOpt with
  | none => simp [calculate_cfp_requirements] at h
  | some ud =>
    have h2 : (if ud.designation ≠ "CFP" then none
        else match ud.birth_month with
          | none => none
          | some bm => if bm = 0 then none else some (cfpResult now u.id bm db)) = some r := h
    by_cases hd : ud.designation = "CFP"
    · rw [if_neg (fun hne => hne hd)] at h2
      cases hbm : ud.birth_month with
      | none => rw [hbm] at h2; exact absurd h2 (by simp)
      | some bm =>
        rw [hbm] at h2
        have h3 : (if bm = 0 then none
            else some (cfpResult now u.id bm db)) = some r := h2
        by_cases hz : bm = 0
        · rw [if_pos hz] at h3; exact absurd h3 (by simp)
        · rw [if_neg hz] at h3
          exact ⟨ud, bm, rfl, hd, hbm, hz, (Option.some.inj h3).symm⟩
    · rw [if_pos hd] at h2
      exact absurd h2 (by simp)

/-- Inversion for the shared CEP/ECA calculator down to `cepiBuild`. -/
theorem cepi_inv {now : Date} {u : User} {udOpt : Option UserDesignation}
    {db : List CERecord} {name : String} {r : DesigResult}
    (h : calculate_cepi_requirements now u udOpt db name = .ok (some r)) :
    ∃ ud, udOpt = some ud ∧ ud.designation = name ∧
      cepiBuild name now u.id (ud.created_at.getD now) db = .ok r := by
  cases udOpt with
  | none => simp [calculate_cepi_requirements] at h
  | some ud =>
    have h2 : (if ud.designation ≠ name then Except.ok none
        else (cepiBuild name now u.id (ud.created_at.getD now) db).map some) =
        Except.ok (some r) := h
    by_cases hd : ud.designation = name
    · rw [if_neg (fun hne => hne hd)] at h2
      refine ⟨ud, rfl, hd, ?_⟩
      cases hb : cepiBuild name now u.id (ud.created_at.getD now) db with
      | error e => rw [hb] at h2; simp [Except.map] at h2
      | ok v =>
        rw [hb] at h2
        simp only [Except.map] at h2
        rw [Option.some.inj (Except.ok.inj h2)]
    · rw [if_pos hd] at h2
      exact absurd h2 (by simp)

/-- Inversion for `cepiBuild`: a successful build means both boundary dates
were constructible and the result is the aggregation over them. -/
theorem cepiBuild_inv {name : String} {now : Date} {uid : Nat} {a : Date}
    {db : List CERecord} {r : DesigResult}
    (h : cepiBuild name now uid a db = .ok r) :
    ∃ ps pe, mkDate (a.year + cepiPeriodNumber now a * 2) a.month a.day = some ps ∧
      mkDate (a.year + (cepiPeriodNumber now a + 1) * 2) a.month a.day = some pe ∧
      r = cepiResult name now uid ps pe db := by
  unfold cepiBuild at h
  cases h1 : mkDate (a.year + cepiPeriodNumber now a * 2) a.month a.day with
  | none => rw [h1] at h; exact absurd h (by simp)
  | some ps =>
    rw [h1] at h
    cases h2 : mkDate (a.year + (cepiPeriodNumber now a + 1) * 2) a.month a.day with
    | none => rw [h2] at h; exact absurd h (by simp)
    | some pe =>
      rw [h2] at h
      exact ⟨ps, pe, rfl, rfl, (Except.ok.inj h).symm⟩

/-- Inversion for the NAPFA calculator. -/
theorem napfa_inv {now : Date} {u : User} {db : List CERecord} {r : NapfaResult}
    (h : calculate_napfa_requirements now u db = some r) :
    ∃ jd, u.is_napfa_member = true ∧ u.napfa_join_date = some jd ∧
      r = napfaResult now u.id jd db := by
  unfold calculate_napfa_requirements at h
  cases hm : u.is_napfa_member with
  | false => rw [hm] at h; exact absurd h (by simp)
  | true =>
    rw [hm] at h
    simp only [Bool.not_true, Bool.false_eq_true, if_false] at h
    cases hj : u.napfa_join_date with
    | none => rw [hj] at h; exact absurd h (by simp)
    | some jd =>
      rw [hj] at h
      exact ⟨jd, rfl, rfl, (Option.some.inj h).symm⟩

/-- A clamped percentage always lies in `[0, 100]`. -/
theorem clampRange (x : ℚ) : 0 ≤ min 100 (max 0 x) ∧ min 100 (max 0 x) ≤ 100 :=
  ⟨le_min (by norm_num) (le_max_left 0 x), min_le_left _ _⟩

/-- The reported remaining amount is unaffected by capping the earned sum
at the required amount. -/
theorem maxSubCap (s req : ℚ) : max 0 (req - s) = max 0 (req - min s req) := by
  rcases le_total s req with h | h
  · rw [min_eq_left h]
  · rw [min_eq_right h, sub_self]
    rw [max_eq_left (by linarith), max_eq_left le_rfl]

/-- Capped earned plus remaining reconstitutes the required amount. -/
theorem minCapAddRem (s req : ℚ) : min s req + max 0 (req - s) = req := by
  rcases le_total s req with h | h
  · rw [min_eq_left h, max_eq_right (by linarith)]
    ring
  · rw [min_eq_right h, max_eq_left (by linarith), add_zero]

/-- C1: for every designation calculator (and the NAPFA calculator) that
returns a result, `total_earned` equals the sum of `hours` over exactly the
user's CE records whose `date_completed` lies in the inclusive window
`[period_start, period_end]`; records outside the window contribute
nothing. -/
theorem C1_total_earned_window :
    (∀ now u udOpt db r, calculate_cfp_requirements now u udOpt db = some r →
      r.total_earned = totalHours (periodRecords db u.id r.period_start r.period_end)) ∧
    (∀ now u udOpt db r, calculate_cpa_requirements now u udOpt db = some r →
      r.total_earned = totalHours (periodRecords db u.id r.period_start r.period_end)) ∧
    (∀ now u udOpt db r, calculate_ea_requirements now u udOpt db = some r →
      r.total_earned = totalHours (periodRecords db u.id r.period_start r.period_end)) ∧
    (∀ now u udOpt db r, calculate_cep_requirements now u udOpt db = .ok (some r) →
      r.total_earned = totalHours (periodRecords db u.id r.period_start r.period_end)) ∧
    (∀ now u udOpt db r, calculate_eca_requirements now u udOpt db = .ok (some r) →
      r.total_earned = totalHours (periodRecords db u.id r.period_start r.period_end)) ∧
    (∀ now u udOpt db r, calculate_cfa_requirements now u udOpt db = some r →
      r.total_earned = totalHours (periodRecords db u.id r.period_start r.period_end)) ∧
    (∀ now u udOpt db r, calculate_clu_requirements now u udOpt db = some r →
      r.total_earned = totalHours (periodRecords db u.id r.period_start r.period_end)) ∧
    (∀ now u udOpt db r, calculate_chfc_requirements now u udOpt db = some r →
      r.total_earned = totalHours (periodRecords db u.id r.period_start r.period_end)) ∧
    (∀ now u udOpt db r, calculate_cima_requirements now u udOpt db = some r →
      r.total_earned = totalHours (periodRecords db u.id r.period_start r.period_end)) ∧
    (∀ now u udOpt db r, calculate_cimc_requirements now u udOpt db = some r →
      r.total_earned = totalHours (periodRecords db u.id r.period_start r.period_end)) ∧
    (∀ now u udOpt db r, calculate_cpwa_requirements now u udOpt db = some r →
      r.total_earned = totalHours (periodRecords db u.id r.period_start r.period_end)) ∧
    (∀ now u udOpt db r, calculate_crps_requirements now u udOpt db = some r →
      r.total_earned = totalHours (periodRecords db u.id r.period_start r.period_end)) ∧
    (∀ now u udOpt db r, calculate_ricp_requirements now u udOpt db = some r →
      r.total_earned = totalHours (periodRecords db u.id r.period_start r.period_end)) ∧
    (∀ now u udOpt db r, calculate_cdfa_requirements now u udOpt db = some r →
      r.total_earned = totalHours (periodRecords db u.id r.period_start r.period_end)) ∧
    (∀ now u udOpt db r, calculate_aif_requirements now u udOpt db = some r →
      r.total_earned = totalHours (periodRecords db u.id r.period_start r.period_end)) ∧
    (∀ now u udOpt db r, calculate_iar_requirements now u udOpt db = some r →
      r.total_earned = totalHours (periodRecords db u.id r.period_start r.period_end)) ∧
    (∀ now u db r, calculate_napfa_requirements now u db = some r →
      r.total_earned = totalHours (periodRecords db u.id r.cycle_start r.cycle_end)) := by
  refine ⟨?_, ?_, ?_, ?_, ?_, ?_, ?_, ?_, ?_, ?_, ?_, ?_, ?_, ?_, ?_, ?_, ?_⟩
  · intro now u udOpt db r h
    obtain ⟨ud, bm, _, _, _, _, rfl⟩ := cfp_inv h
    rfl
  · intro now u udOpt db r h
    obtain ⟨ud, _, _, rfl⟩ := guardedCalc_inv h
    rfl
  · intro now u udOpt db r h
    obtain ⟨ud, _, _, rfl⟩ := guardedCalc_inv h
    rfl
  · intro now u udOpt db r h
    obtain ⟨ud, _, _, hb⟩ := cepi_inv h
    obtain ⟨ps, pe, _, _, rfl⟩ := cepiBuild_inv hb
    rfl
  · intro now u udOpt db r h
    obtain ⟨ud, _, _, hb⟩ := cepi_inv h
    obtain ⟨ps, pe, _, _, rfl⟩ := cepiBuild_inv hb
    rfl
  · intro now u udOpt db r h
    obtain ⟨ud, _, _, rfl⟩ := guardedCalc_inv h
    rfl
  · intro now u udOpt db r h
    obtain ⟨ud, _, _, rfl⟩ := guardedCalc_inv h
    rfl
  · intro now u udOpt db r h
    obtain ⟨ud, _, _, rfl⟩ := guardedCalc_inv h
    rfl
  · intro now u udOpt db r h
    obtain ⟨ud, _, _, rfl⟩ := guardedCalc_inv h
    rfl
  · intro now u udOpt db r h
    obtain ⟨ud, _, _, rfl⟩ := guardedCalc_inv h
    rfl
  · intro now u udOpt db r h
    obtain ⟨ud, _, _, rfl⟩ := guardedCalc_inv h
    rfl
  · intro now u udOpt db r h
    obtain ⟨ud, _, _, rfl⟩ := guardedCalc_inv h
    rfl
  · intro now u udOpt db r h
    obtain ⟨ud, _, _, rfl⟩ := guardedCalc_inv h
    rfl
  · intro now u udOpt db r h
    obtain ⟨ud, _, _, rfl⟩ := guardedCalc_inv h
    rfl
  · intro now u udOpt db r h
    obtain ⟨ud, _, _, rfl⟩ := guardedCalc_inv h
    rfl
  · intro now u udOpt db r h
    obtain ⟨ud, _, _, rfl⟩ := guardedCalc_inv h
    rfl
  · intro now u db r h
    obtain ⟨jd, _, _, rfl⟩ := napfa_inv h
    rfl

/-- C1 witness: the CFP component applied at a concrete user, assignment
and record set. -/
theorem C1_total_earned_window_witness :
    (cfpResult dNowMay cUser.id 6 dbC7).total_earned =
      totalHours (periodRecords dbC7 cUser.id
        (cfpResult dNowMay cUser.id 6 dbC7).period_start
        (cfpResult dNowMay cUser.id 6 dbC7).period_end) :=
  C1_total_earned_window.1 dNowMay cUser (some udCFP) dbC7
    (cfpResult dNowMay cUser.id 6 dbC7) rfl

/-- C2: `is_complete` is true exactly when the total earned meets or
exceeds the total required and every sub-requirement's earned hours meet or
exceed its required hours — the uncapped ethics hour sum for CFP/EA/IAR and
the yearly-minimum hours for EA — and, for NAPFA, additionally at least one
in-cycle record has `is_ethics_course` set. -/
theorem C2_is_complete_iff :
    (∀ now u udOpt db r, calculate_cfp_requirements now u udOpt db = some r →
      (r.is_complete = true ↔ (r.total_required ≤ r.total_earned ∧
        2 ≤ ethicsHours (periodRecords db u.id r.period_start r.period_end)))) ∧
    (∀ now u udOpt db r, calculate_cpa_requirements now u udOpt db = some r →
      (r.is_complete = true ↔ r.total_required ≤ r.total_earned)) ∧
    (∀ now u udOpt db r, calculate_ea_requirements now u udOpt db = some r →
      (r.is_complete = true ↔ (r.total_required ≤ r.total_earned ∧
        16 ≤ totalHours ((periodRecords db u.id r.period_start r.period_end).filter
          (fun rec => dle ⟨now.year, 1, 1⟩ rec.date_completed &&
            dle rec.date_completed ⟨now.year, 12, 31⟩)) ∧
        2 ≤ ethicsHours (periodRecords db u.id r.period_start r.period_end)))) ∧
    (∀ now u udOpt db r, calculate_cep_requirements now u udOpt db = .ok (some r) →
      (r.is_complete = true ↔ r.total_required ≤ r.total_earned)) ∧
    (∀ now u udOpt db r, calculate_eca_requirements now u udOpt db = .ok (some r) →
      (r.is_complete = true ↔ r.total_required ≤ r.total_earned)) ∧
    (∀ now u udOpt db r, calculate_cfa_requirements now u udOpt db = some r →
      (r.is_complete = true ↔ r.total_required ≤ r.total_earned)) ∧
    (∀ now u udOpt db r, calculate_clu_requirements now u udOpt db = some r →
      (r.is_complete = true ↔ r.total_required ≤ r.total_earned)) ∧
    (∀ now u udOpt db r, calculate_chfc_requirements now u udOpt db = some r →
      (r.is_complete = true ↔ r.total_required ≤ r.total_earned)) ∧
    (∀ now u udOpt db r, calculate_cima_requirements now u udOpt db = some r →
      (r.is_complete = true ↔ r.total_required ≤ r.total_earned)) ∧
    (∀ now u udOpt db r, calculate_cimc_requirements now u udOpt db = some r →
      (r.is_complete = true ↔ r.total_required ≤ r.total_earned)) ∧
    (∀ now u udOpt db r, calculate_cpwa_requirements now u udOpt db = some r →
      (r.is_complete = true ↔ r.total_required ≤ r.total_earned)) ∧
    (∀ now u udOpt db r, calculate_crps_requirements now u udOpt db = some r →
      (r.is_complete = true ↔ r.total_required ≤ r.total_earned)) ∧
    (∀ now u udOpt db r, calculate_ricp_requirements now u udOpt db = some r →
      (r.is_complete = true ↔ r.total_required ≤ r.total_earned)) ∧
    (∀ now u udOpt db r, calculate_cdfa_requirements now u udOpt db = some r →
      (r.is_complete = true ↔ r.total_required ≤ r.total_earned)) ∧
    (∀ now u udOpt db r, calculate_aif_requirements now u udOpt db = some r →
      (r.is_complete = true ↔ r.total_required ≤ r.total_earned)) ∧
    (∀ now u udOpt db r, calculate_iar_requirements now u udOpt db = some r →
      (r.is_complete = true ↔ (r.total_required ≤ r.total_earned ∧
        6 ≤ ethicsHours (periodRecords db u.id r.period_start r.period_end)))) ∧
    (∀ now u db r, calculate_napfa_requirements now u db = some r →
      (r.is_complete = true ↔ (r.total_required ≤ r.total_earned ∧
        r.napfa_approved_required ≤ r.napfa_approved_earned ∧
        (periodRecords db u.id r.cycle_start r.cycle_end).any
          (fun rec => rec.is_ethics_course) = true))) := by
  refine ⟨?_, ?_, ?_, ?_, ?_, ?_, ?_, ?_, ?_, ?_, ?_, ?_, ?_, ?_, ?_, ?_, ?_⟩
  · intro now u udOpt db r h
    obtain ⟨ud, bm, _, _, _, _, rfl⟩ := cfp_inv h
    simp [cfpResult, ge_iff_le]
  · intro now u udOpt db r h
    obtain ⟨ud, _, _, rfl⟩ := guardedCalc_inv h
    simp [cpaResult, ge_iff_le]
  · intro now u udOpt db r h
    obtain ⟨ud, _, _, rfl⟩ := guardedCalc_inv h
    simp [eaResult, ge_iff_le]
  · intro now u udOpt db r h
    obtain ⟨ud, _, _, hb⟩ := cepi_inv h
    obtain ⟨ps, pe, _, _, rfl⟩ := cepiBuild_inv hb
    simp [cepiResult, ge_iff_le]
  · intro now u udOpt db r h
    obtain ⟨ud, _, _, hb⟩ := cepi_inv h
    obtain ⟨ps, pe, _, _, rfl⟩ := cepiBuild_inv hb
    simp [cepiResult, ge_iff_le]
  · intro now u udOpt db r h
    obtain ⟨ud, _, _, rfl⟩ := guardedCalc_inv h
    simp [simpleAggregate, ge_iff_le]
  · intro now u udOpt db r h
    obtain ⟨ud, _, _, rfl⟩ := guardedCalc_inv h
    simp [simpleAggregate, ge_iff_le]
  · intro now u udOpt db r h
    obtain ⟨ud, _, _, rfl⟩ := guardedCalc_inv h
    simp [simpleAggregate, ge_iff_le]
  · intro now u udOpt db r h
    obtain ⟨ud, _, _, rfl⟩ := guardedCalc_inv h
    simp [simpleAggregate, ge_iff_le]
  · intro now u udOpt db r h
    obtain ⟨ud, _, _, rfl⟩ := guardedCalc_inv h
    simp [simpleAggregate, ge_iff_le]
  · intro now u udOpt db r h
    obtain ⟨ud, _, _, rfl⟩ := guardedCalc_inv h
    simp [simpleAggregate, ge_iff_le]
  · intro now u udOpt db r h
    obtain ⟨ud, _, _, rfl⟩ := guardedCalc_inv h
    simp [simpleAggregate, ge_iff_le]
  · intro now u udOpt db r h
    obtain ⟨ud, _, _, rfl⟩ := guardedCalc_inv h
    simp [simpleAggregate, ge_iff_le]
  · intro now u udOpt db r h
    obtain ⟨ud, _, _, rfl⟩ := guardedCalc_inv h
    simp [simpleAggregate, ge_iff_le]
  · intro now u udOpt db r h
    obtain ⟨ud, _, _, rfl⟩ := guardedCalc_inv h
    simp [simpleAggregate, ge_iff_le]
  · intro now u udOpt db r h
    obtain ⟨ud, _, _, rfl⟩ := guardedCalc_inv h
    simp [iarResult, ge_iff_le]
  · intro now u db r h
    obtain ⟨jd, _, _, rfl⟩ := napfa_inv h
    simp [napfaResult, ge_iff_le, and_assoc]

/-- C2 witness: the CFP component applied at a concrete input. -/
theorem C2_is_complete_iff_witness :
    (cfpResult dNowMay cUser.id 6 dbC7).is_complete = true ↔
      ((cfpResult dNowMay cUser.id 6 dbC7).total_required ≤
        (cfpResult dNowMay cUser.id 6 dbC7).total_earned ∧
       2 ≤ ethicsHours (periodRecords dbC7 cUser.id
         (cfpResult dNowMay cUser.id 6 dbC7).period_start
         (cfpResult dNowMay cUser.id 6 dbC7).period_end)) :=
  C2_is_complete_iff.1 dNowMay cUser (some udCFP) dbC7
    (cfpResult dNowMay cUser.id 6 dbC7) rfl

/-- C3: every reported percentage lies in `[0, 100]` even when earned
exceeds required, and every reported remaining field equals
`max 0 (required - earned)`, hence is never negative. -/
theorem C3_percentages_and_remaining :
    (∀ now u udOpt db r, calculate_cfp_requirements now u udOpt db = some r →
      (0 ≤ r.total_percentage ∧ r.total_percentage ≤ 100 ∧
       r.total_remaining = max 0 (r.total_required - r.total_earned) ∧
       (∀ p, r.ethics_percentage = some p → 0 ≤ p ∧ p ≤ 100) ∧
       (∀ req e rem, r.ethics_required = some req → r.ethics_earned = some e →
         r.ethics_remaining = some rem → rem = max 0 (req - e)))) ∧
    (∀ now u udOpt db r, calculate_cpa_requirements now u udOpt db = some r →
      (0 ≤ r.total_percentage ∧ r.total_percentage ≤ 100 ∧
       r.total_remaining = max 0 (r.total_required - r.total_earned))) ∧
    (∀ now u udOpt db r, calculate_ea_requirements now u udOpt db = some r →
      (0 ≤ r.total_percentage ∧ r.total_percentage ≤ 100 ∧
       r.total_remaining = max 0 (r.total_required - r.total_earned) ∧
       (∀ p, r.yearly_percentage = some p → 0 ≤ p ∧ p ≤ 100) ∧
       (∀ p, r.ethics_percentage = some p → 0 ≤ p ∧ p ≤ 100) ∧
       (∀ req e rem, r.ethics_required = some req → r.ethics_earned = some e →
         r.ethics_remaining = some rem → rem = max 0 (req - e)))) ∧
    (∀ now u udOpt db r, calculate_cep_requirements now u udOpt db = .ok (some r) →
      (0 ≤ r.total_percentage ∧ r.total_percentage ≤ 100 ∧
       r.total_remaining = max 0 (r.total_required - r.total_earned))) ∧
    (∀ now u udOpt db r, calculate_eca_requirements now u udOpt db = .ok (some r) →
      (0 ≤ r.total_percentage ∧ r.total_percentage ≤ 100 ∧
       r.total_remaining = max 0 (r.total_required - r.total_earned))) ∧
    (∀ now u udOpt db r, calculate_cfa_requirements now u udOpt db = some r →
      (0 ≤ r.total_percentage ∧ r.total_percentage ≤ 100 ∧
       r.total_remaining = max 0 (r.total_required - r.total_earned))) ∧
    (∀ now u udOpt db r, calculate_clu_requirements now u udOpt db = some r →
      (0 ≤ r.total_percentage ∧ r.total_percentage ≤ 100 ∧
       r.total_remaining = max 0 (r.total_required - r.total_earned))) ∧
    (∀ now u udOpt db r, calculate_chfc_requirements now u udOpt db = some r →
      (0 ≤ r.total_percentage ∧ r.total_percentage ≤ 100 ∧
       r.total_remaining = max 0 (r.total_required - r.total_earned))) ∧
    (∀ now u udOpt db r, calculate_cima_requirements now u udOpt db = some r →
      (0 ≤ r.total_percentage ∧ r.total_percentage ≤ 100 ∧
       r.total_remaining = max 0 (r.total_required - r.total_earned))) ∧
    (∀ now u udOpt db r, calculate_cimc_requirements now u udOpt db = some r →
      (0 ≤ r.total_percentage ∧ r.total_percentage ≤ 100 ∧
       r.total_remaining = max 0 (r.total_required - r.total_earned))) ∧
    (∀ now u udOpt db r, calculate_cpwa_requirements now u udOpt db = some r →
      (0 ≤ r.total_percentage ∧ r.total_percentage ≤ 100 ∧
       r.total_remaining = max 0 (r.total_required - r.total_earned))) ∧
    (∀ now u udOpt db r, calculate_crps_requirements now u udOpt db = some r →
      (0 ≤ r.total_percentage ∧ r.total_percentage ≤ 100 ∧
       r.total_remaining = max 0 (r.total_required - r.total_earned))) ∧
    (∀ now u udOpt db r, calculate_ricp_requirements now u udOpt db = some r →
      (0 ≤ r.total_percentage ∧ r.total_percentage ≤ 100 ∧
       r.total_remaining = max 0 (r.total_required - r.total_earned))) ∧
    (∀ now u udOpt db r, calculate_cdfa_requirements now u udOpt db = some r →
      (0 ≤ r.total_percentage ∧ r.total_percentage ≤ 100 ∧
       r.total_remaining = max 0 (r.total_required - r.total_earned))) ∧
    (∀ now u udOpt db r, calculate_aif_requirements now u udOpt db = some r →
      (0 ≤ r.total_percentage ∧ r.total_percentage ≤ 100 ∧
       r.total_remaining = max 0 (r.total_required - r.total_earned))) ∧
    (∀ now u udOpt db r, calculate_iar_requirements now u udOpt db = some r →
      (0 ≤ r.total_percentage ∧ r.total_percentage ≤ 100 ∧
       r.total_remaining = max 0 (r.total_required - r.total_earned) ∧
       (∀ p, r.ethics_percentage = some p → 0 ≤ p ∧ p ≤ 100) ∧
       (∀ req e rem, r.ethics_required = some req → r.ethics_earned = some e →
         r.ethics_remaining = some rem → rem = max 0 (req - e)))) ∧
    (∀ now u db r, calculate_napfa_requirements now u db = some r →
      (0 ≤ r.total_percentage ∧ r.total_percentage ≤ 100 ∧
       r.total_remaining = max 0 (r.total_required - r.total_earned) ∧
       0 ≤ r.napfa_approved_percentage ∧ r.napfa_approved_percentage ≤ 100 ∧
       r.napfa_approved_remaining =
         max 0 (r.napfa_approved_required - r.napfa_approved_earned))) := by
  refine ⟨?_, ?_, ?_, ?_, ?_, ?_, ?_, ?_, ?_, ?_, ?_, ?_, ?_, ?_, ?_, ?_, ?_⟩
  · intro now u udOpt db r h
    obtain ⟨ud, bm, _, _, _, _, rfl⟩ := cfp_inv h
    refine ⟨(clampRange _).1, (clampRange _).2, rfl, ?_, ?_⟩
    · intro p hp
      rw [← Option.some.inj hp]
      exact clampRange _
    · intro req e rem h1 h2 h3
      rw [← Option.some.inj h1, ← Option.some.inj h2, ← Option.some.inj h3]
      exact maxSubCap _ 2
  · intro now u udOpt db r h
    obtain ⟨ud, _, _, rfl⟩ := guardedCalc_inv h
    exact ⟨(clampRange _).1, (clampRange _).2, rfl⟩
  · intro now u udOpt db r h
    obtain ⟨ud, _, _, rfl⟩ := guardedCalc_inv h
    refine ⟨(clampRange _).1, (clampRange _).2, rfl, ?_, ?_, ?_⟩
    · intro p hp
      rw [← Option.some.inj hp]
      exact clampRange _
    · intro p hp
      rw [← Option.some.inj hp]
      exact clampRange _
    · intro req e rem h1 h2 h3
      rw [← Option.some.inj h1, ← Option.some.inj h2, ← Option.some.inj h3]
      exact maxSubCap _ 2
  · intro now u udOpt db r h
    obtain ⟨ud, _, _, hb⟩ := cepi_inv h
    obtain ⟨ps, pe, _, _, rfl⟩ := cepiBuild_inv hb
    exact ⟨(clampRange _).1, (clampRange _).2, rfl⟩
  · intro now u udOpt db r h
    obtain ⟨ud, _, _, hb⟩ := cepi_inv h
    obtain ⟨ps, pe, _, _, rfl⟩ := cepiBuild_inv hb
    exact ⟨(clampRange _).1, (clampRange _).2, rfl⟩
  · intro now u udOpt db r h
    obtain ⟨ud, _, _, rfl⟩ := guardedCalc_inv h
    exact ⟨(clampRange _).1, (clampRange _).2, rfl⟩
  · intro now u udOpt db r h
    obtain ⟨ud, _, _, rfl⟩ := guardedCalc_inv h
    exact ⟨(clampRange _).1, (clampRange _).2, rfl⟩
  · intro now u udOpt db r h
    obtain ⟨ud, _, _, rfl⟩ := guardedCalc_inv h
    exact ⟨(clampRange _).1, (clampRange _).2, rfl⟩
  · intro now u udOpt db r h
    obtain ⟨ud, _, _, rfl⟩ := guardedCalc_inv h
    exact ⟨(clampRange _).1, (clampRange _).2, rfl⟩
  · intro now u udOpt db r h
    obtain ⟨ud, _, _, rfl⟩ := guardedCalc_inv h
    exact ⟨(clampRange _).1, (clampRange _).2, rfl⟩
  · intro now u udOpt db r h
    obtain ⟨ud, _, _, rfl⟩ := guardedCalc_inv h
    exact ⟨(clampRange _).1, (clampRange _).2, rfl⟩
  · intro now u udOpt db r h
    obtain ⟨ud, _, _, rfl⟩ := guardedCalc_inv h
    exact ⟨(clampRange _).1, (clampRange _).2, rfl⟩
  · intro now u udOpt db r h
    obtain ⟨ud, _, _, rfl⟩ := guardedCalc_inv h
    exact ⟨(clampRange _).1, (clampRange _).2, rfl⟩
  · intro now u udOpt db r h
    obtain ⟨ud, _, _, rfl⟩ := guardedCalc_inv h
    exact ⟨(clampRange _).1, (clampRange _).2, rfl⟩
  · intro now u udOpt db r h
    obtain ⟨ud, _, _, rfl⟩ := guardedCalc_inv h
    exact ⟨(clampRange _).1, (clampRange _).2, rfl⟩
  · intro now u udOpt db r h
    obtain ⟨ud, _, _, rfl⟩ := guardedCalc_inv h
    refine ⟨(clampRange _).1, (clampRange _).2, rfl, ?_, ?_⟩
    · intro p hp
      rw [← Option.some.inj hp]
      exact clampRange _
    · intro req e rem h1 h2 h3
      rw [← Option.some.inj h1, ← Option.some.inj h2, ← Option.some.inj h3]
      exact maxSubCap _ 6
  · intro now u db r h
    obtain ⟨jd, _, _, rfl⟩ := napfa_inv h
    exact ⟨(clampRange _).1, (clampRange _).2, rfl,
      (clampRange _).1, (clampRange _).2, rfl⟩

/-- C3 witness: the CFP component applied at a concrete input (its
quantifier-free conjuncts). -/
theorem C3_percentages_and_remaining_witness :
    0 ≤ (cfpResult dNowMay cUser.id 6 dbC7).total_percentage ∧
    (cfpResult dNowMay cUser.id 6 dbC7).total_percentage ≤ 100 ∧
    (cfpResult dNowMay cUser.id 6 dbC7).total_remaining =
      max 0 ((cfpResult dNowMay cUser.id 6 dbC7).total_required -
        (cfpResult dNowMay cUser.id 6 dbC7).total_earned) :=
  ⟨(C3_percentages_and_remaining.1 dNowMay cUser (some udCFP) dbC7
      (cfpResult dNowMay cUser.id 6 dbC7) rfl).1,
   (C3_percentages_and_remaining.1 dNowMay cUser (some udCFP) dbC7
      (cfpResult dNowMay cUser.id 6 dbC7) rfl).2.1,
   (C3_percentages_and_remaining.1 dNowMay cUser (some udCFP) dbC7
      (cfpResult dNowMay cUser.id 6 dbC7) rfl).2.2.1⟩

/-- C10: for CFP, EA and IAR, the reported `ethics_earned` never exceeds
`ethics_required`, and `ethics_earned + ethics_remaining = ethics_required`
holds for every result. -/
theorem C10_ethics_cap_identity :
    (∀ now u udOpt db r, calculate_cfp_requirements now u udOpt db = some r →
      ∀ req e rem, r.ethics_required = some req → r.ethics_earned = some e →
        r.ethics_remaining = some rem → e ≤ req ∧ e + rem = req) ∧
    (∀ now u udOpt db r, calculate_ea_requirements now u udOpt db = some r →
      ∀ req e rem, r.ethics_required = some req → r.ethics_earned = some e →
        r.ethics_remaining = some rem → e ≤ req ∧ e + rem = req) ∧
    (∀ now u udOpt db r, calculate_iar_requirements now u udOpt db = some r →
      ∀ req e rem, r.ethics_required = some req → r.ethics_earned = some e →
        r.ethics_remaining = some rem → e ≤ req ∧ e + rem = req) := by
  refine ⟨?_, ?_, ?_⟩
  · intro now u udOpt db r h req e rem h1 h2 h3
    obtain ⟨ud, bm, _, _, _, _, rfl⟩ := cfp_inv h
    rw [← Option.some.inj h1, ← Option.some.inj h2, ← Option.some.inj h3]
    exact ⟨min_le_right _ _, minCapAddRem _ _⟩
  · intro now u udOpt db r h req e rem h1 h2 h3
    obtain ⟨ud, _, _, rfl⟩ := guardedCalc_inv h
    rw [← Option.some.inj h1, ← Option.some.inj h2, ← Option.some.inj h3]
    exact ⟨min_le_right _ _, minCapAddRem _ _⟩
  · intro now u udOpt db r h req e rem h1 h2 h3
    obtain ⟨ud, _, _, rfl⟩ := guardedCalc_inv h
    rw [← Option.some.inj h1, ← Option.some.inj h2, ← Option.some.inj h3]
    exact ⟨min_le_right _ _, minCapAddRem _ _⟩

/-- C10 witness: the CFP component applied at a concrete input where the
uncapped ethics sum (3) exceeds the required amount (2). -/
theorem C10_ethics_cap_identity_witness :
    min (ethicsHours (periodRecords dbC7 cUser.id
        (cfpResult dNowMay cUser.id 6 dbC7).period_start
        (cfpResult dNowMay cUser.id 6 dbC7).period_end)) 2 ≤ 2 ∧
    min (ethicsHours (periodRecords dbC7 cUser.id
        (cfpResult dNowMay cUser.id 6 dbC7).period_start
        (cfpResult dNowMay cUser.id 6 dbC7).period_end)) 2 +
      max 0 (2 - ethicsHours (periodRecords dbC7 cUser.id
        (cfpResult dNowMay cUser.id 6 dbC7).period_start
        (cfpResult dNowMay cUser.id 6 dbC7).period_end)) = 2 :=
  C10_ethics_cap_identity.1 dNowMay cUser (some udCFP) dbC7
    (cfpResult dNowMay cUser.id 6 dbC7) rfl 2
    (min (ethicsHours (periodRecords dbC7 cUser.id
      (cfpResult dNowMay cUser.id 6 dbC7).period_start
      (cfpResult dNowMay cUser.id 6 dbC7).period_end)) 2)
    (max 0 (2 - ethicsHours (periodRecords dbC7 cUser.id
      (cfpResult dNowMay cUser.id 6 dbC7).period_start
      (cfpResult dNowMay cUser.id 6 dbC7).period_end)))
    rfl rfl rfl

/-- C7 counterexample: with a single 3-hour in-window ethics course, the
CFP calculator reports `ethics_earned = 2` (capped at the required amount)
although the full matching-record hour sum is 3. -/
theorem C7_counterexample :
    (calculate_cfp_requirements dNowMay cUser (some udCFP) dbC7).map
      (fun r => r.ethics_earned) = some (some 2) ∧
    (calculate_cfp_requirements dNowMay cUser (some udCFP) dbC7).map
      (fun r => (r.period_start, r.period_end)) =
      some (⟨2023, 6, 1⟩, ⟨2025, 5, 31⟩) ∧
    ethicsHours (periodRecords dbC7 cUser.id ⟨2023, 6, 1⟩ ⟨2025, 5, 31⟩) = 3 ∧
    (2 : ℚ) ≠ 3 := by
  have hrecs : periodRecords dbC7 cUser.id ⟨2023, 6, 1⟩ ⟨2025, 5, 31⟩ =
      [⟨1, some "Ethics in Planning", 3, ⟨2025, 1, 15⟩, some "Ethics", false, false⟩,
       ⟨1, some "Tax Update", 5, ⟨2024, 7, 1⟩, none, true, true⟩] := by
    simp +decide [periodRecords, dbC7, cUser]
  have heth : ethicsHours (periodRecords dbC7 cUser.id ⟨2023, 6, 1⟩ ⟨2025, 5, 31⟩) = 3 := by
    rw [hrecs]
    simp +decide [ethicsHours, totalHours]
  refine ⟨?_, rfl, heth, by norm_num⟩
  have he : (cfpResult dNowMay cUser.id 6 dbC7).ethics_earned = some 2 := by
    rw [show (cfpResult dNowMay cUser.id 6 dbC7).ethics_earned =
      some (min (ethicsHours (periodRecords dbC7 cUser.id
        ⟨2023, 6, 1⟩ ⟨2025, 5, 31⟩)) 2) from rfl, heth]
    norm_num
  show some ((cfpResult dNowMay cUser.id 6 dbC7).ethics_earned) = some (some 2)
  rw [he]

/-- C7 amended: the reported sub-requirement earned value is the matching
hour sum capped at the required amount (`min sum required`) for the ethics
sub-requirements of CFP, EA and IAR; NAPFA's `napfa_approved_earned` is the
uncapped matching sum. -/
theorem C7_subearned_capped :
    (∀ now u udOpt db r, calculate_cfp_requirements now u udOpt db = some r →
      r.ethics_earned = some (min (ethicsHours
        (periodRecords db u.id r.period_start r.period_end)) 2)) ∧
    (∀ now u udOpt db r, calculate_ea_requirements now u udOpt db = some r →
      r.ethics_earned = some (min (ethicsHours
        (periodRecords db u.id r.period_start r.period_end)) 2)) ∧
    (∀ now u udOpt db r, calculate_iar_requirements now u udOpt db = some r →
      r.ethics_earned = some (min (ethicsHours
        (periodRecords db u.id r.period_start r.period_end)) 6)) ∧
    (∀ now u db r, calculate_napfa_requirements now u db = some r →
      r.napfa_approved_earned =
        napfaApprovedHours (periodRecords db u.id r.cycle_start r.cycle_end)) := by
  refine ⟨?_, ?_, ?_, ?_⟩
  · intro now u udOpt db r h
    obtain ⟨ud, bm, _, _, _, _, rfl⟩ := cfp_inv h
    rfl
  · intro now u udOpt db r h
    obtain ⟨ud, _, _, rfl⟩ := guardedCalc_inv h
    rfl
  · intro now u udOpt db r h
    obtain ⟨ud, _, _, rfl⟩ := guardedCalc_inv h
    rfl
  · intro now u db r h
    obtain ⟨jd, _, _, rfl⟩ := napfa_inv h
    rfl

/-- C7 witness (amended claim): the CFP component at the concrete input of
the counterexample. -/
theorem C7_subearned_capped_witness :
    (cfpResult dNowMay cUser.id 6 dbC7).ethics_earned =
      some (min (ethicsHours (periodRecords dbC7 cUser.id
        (cfpResult dNowMay cUser.id 6 dbC7).period_start
        (cfpResult dNowMay cUser.id 6 dbC7).period_end)) 2) :=
  C7_subearned_capped.1 dNowMay cUser (some udCFP) dbC7
    (cfpResult dNowMay cUser.id 6 dbC7) rfl

/-- Every month has at most 31 days. -/
theorem daysInMonth_le (y : Int) (m : Nat) : daysInMonth y m ≤ 31 := by
  unfold daysInMonth
  split
  · split <;> omega
  · split <;> omega

/-- The day before the first of a month (other than January) is the last
day of the preceding month. -/
theorem predDate_first (y : Int) (m : Nat) (h : 1 < m) :
    predDate ⟨y, m, 1⟩ = ⟨y, m - 1, daysInMonth y (m - 1)⟩ := by
  unfold predDate
  simp [h]

/-- The day before January 1st is December 31st of the preceding year. -/
theorem predDate_jan (y : Int) : predDate ⟨y, 1, 1⟩ = ⟨y - 1, 12, 31⟩ := by
  unfold predDate
  simp

/-- The CFP window computed for any valid `now` contains `now`. -/
theorem cfpPeriod_contains (now : Date) (bm : Nat) (hval : now.validb = true)
    (hbm1 : 1 ≤ bm) (hbm12 : bm ≤ 12) :
    dle (cfpPeriod now bm).1 now = true ∧ dle now (cfpPeriod now bm).2 = true := by
  simp only [Date.validb, Bool.and_eq_true, decide_eq_true_eq] at hval
  obtain ⟨⟨⟨⟨⟨hy1, hy2⟩, hm1⟩, hm2⟩, hd1⟩, hd2⟩ := hval
  unfold cfpPeriod
  by_cases hc : now.month < bm
  · rw [if_pos hc]
    constructor
    · simp only [dle, Bool.or_eq_true, Bool.and_eq_true, decide_eq_true_eq, beq_iff_eq]
      left; omega
    · have hbm2 : 1 < bm := lt_of_le_of_lt hm1 hc
      rw [predDate_first now.year bm hbm2]
      simp only [dle, Bool.or_eq_true, Bool.and_eq_true, decide_eq_true_eq, beq_iff_eq]
      by_cases heq : now.month = bm - 1
      · refine Or.inr ⟨trivial, Or.inr ⟨heq, ?_⟩⟩
        rw [← heq]
        exact hd2
      · exact Or.inr ⟨trivial, Or.inl (by omega)⟩
  · rw [if_neg hc]
    constructor
    · simp only [dle, Bool.or_eq_true, Bool.and_eq_true, decide_eq_true_eq, beq_iff_eq]
      left; omega
    · by_cases hb1 : 1 < bm
      · rw [predDate_first (now.year + 1) bm hb1]
        simp only [dle, Bool.or_eq_true, Bool.and_eq_true, decide_eq_true_eq, beq_iff_eq]
        left; omega
      · have hbm : bm = 1 := by omega
        subst hbm
        rw [predDate_jan (now.year + 1)]
        simp only [dle, Bool.or_eq_true, Bool.and_eq_true, decide_eq_true_eq, beq_iff_eq]
        have hd31 : now.day ≤ 31 := le_trans hd2 (daysInMonth_le now.year now.month)
        by_cases h12 : now.month = 12
        · exact Or.inr ⟨by omega, Or.inr ⟨h12, hd31⟩⟩
        · exact Or.inr ⟨by omega, Or.inl (by omega)⟩

/-- C4: the CFP period is anchored at the 1st of the birth month — when the
current month precedes the birth month it spans `[year-2, year)`, otherwise
`[year-1, year+1)`, ending the day before the birth month's 1st; `now`
always lies inside the computed window (no gap at the birth-month
boundary), and the two spec examples hold. -/
theorem C4_cfp_period :
    (∀ now u ud bm db r, ud.birth_month = some bm → Date.validb now = true →
      1 ≤ bm → bm ≤ 12 →
      calculate_cfp_requirements now u (some ud) db = some r →
      ((now.month < bm → r.period_start = ⟨now.year - 2, bm, 1⟩ ∧
          r.period_end = predDate ⟨now.year, bm, 1⟩) ∧
       (¬ now.month < bm → r.period_start = ⟨now.year - 1, bm, 1⟩ ∧
          r.period_end = predDate ⟨now.year + 1, bm, 1⟩) ∧
       dle r.period_start now = true ∧ dle now r.period_end = true)) ∧
    (calculate_cfp_requirements dNowMay cUser (some udCFP) []).map
      (fun r => (r.period_start, r.period_end)) =
      some (⟨2023, 6, 1⟩, ⟨2025, 5, 31⟩) ∧
    (calculate_cfp_requirements dNowJul cUser (some udCFP) []).map
      (fun r => (r.period_start, r.period_end)) =
      some (⟨2024, 6, 1⟩, ⟨2026, 5, 31⟩) := by
  refine ⟨?_, rfl, rfl⟩
  intro now u ud bm db r hbm hval h1 h12 h
  obtain ⟨ud', bm', heq, hdes, hbm', hz, rfl⟩ := cfp_inv h
  have hud : ud' = ud := (Option.some.inj heq).symm
  subst hud
  rw [hbm] at hbm'
  have hbmeq : bm = bm' := Option.some.inj hbm'
  subst hbmeq
  refine ⟨?_, ?_, (cfpPeriod_contains now bm hval h1 h12).1,
    (cfpPeriod_contains now bm hval h1 h12).2⟩
  · intro hc
    constructor
    · show (cfpPeriod now bm).1 = ⟨now.year - 2, bm, 1⟩
      unfold cfpPeriod
      rw [if_pos hc]
    · show (cfpPeriod now bm).2 = predDate ⟨now.year, bm, 1⟩
      unfold cfpPeriod
      rw [if_pos hc]
  · intro hc
    constructor
    · show (cfpPeriod now bm).1 = ⟨now.year - 1, bm, 1⟩
      unfold cfpPeriod
      rw [if_neg hc]
    · show (cfpPeriod now bm).2 = predDate ⟨now.year + 1, bm, 1⟩
      unfold cfpPeriod
      rw [if_neg hc]

/-- C4 witness: the general CFP period property at `now = 2025-05-01`,
birth month 6, with an empty record set. -/
theorem C4_cfp_period_witness :
    (dNowMay.month < 6 →
      (cfpResult dNowMay cUser.id 6 []).period_start = ⟨dNowMay.year - 2, 6, 1⟩ ∧
      (cfpResult dNowMay cUser.id 6 []).period_end = predDate ⟨dNowMay.year, 6, 1⟩) ∧
    (¬ dNowMay.month < 6 →
      (cfpResult dNowMay cUser.id 6 []).period_start = ⟨dNowMay.year - 1, 6, 1⟩ ∧
      (cfpResult dNowMay cUser.id 6 []).period_end = predDate ⟨dNowMay.year + 1, 6, 1⟩) ∧
    dle (cfpResult dNowMay cUser.id 6 []).period_start dNowMay = true ∧
    dle dNowMay (cfpResult dNowMay cUser.id 6 []).period_end = true :=
  C4_cfp_period.1 dNowMay cUser udCFP 6 [] (cfpResult dNowMay cUser.id 6 [])
    rfl (by decide) (by decide) (by decide) rfl

/-- The concrete CEP example period index: 814 days elapsed gives index 1. -/
theorem cepn1 : cepiPeriodNumber dNowJun ⟨2023, 3, 10⟩ = 1 := by
  have hd : toOrdinal dNowJun - toOrdinal ⟨2023, 3, 10⟩ = 814 := by decide
  show (⌊((toOrdinal dNowJun - toOrdinal ⟨2023, 3, 10⟩ : ℤ) : ℚ) / 365.25 / 2⌋ : ℤ) = 1
  rw [hd]
  norm_num

/-- Evaluation of the CEP calculator on the spec's concrete example. -/
theorem cepEval : calculate_cepi_requirements dNowJun cUser (some udCEP) [] "CEP" =
    .ok (some (cepiResult "CEP" dNowJun cUser.id ⟨2025, 3, 10⟩ ⟨2027, 3, 10⟩ [])) := by
  have e2 : cepiBuild "CEP" dNowJun cUser.id ⟨2023, 3, 10⟩ [] =
      .ok (cepiResult "CEP" dNowJun cUser.id ⟨2025, 3, 10⟩ ⟨2027, 3, 10⟩ []) := by
    unfold cepiBuild
    rw [cepn1]
    rfl
  rw [show calculate_cepi_requirements dNowJun cUser (some udCEP) [] "CEP" =
    (cepiBuild "CEP" dNowJun cUser.id ⟨2023, 3, 10⟩ []).map some from rfl, e2]
  rfl

/-- Evaluation of the second boundary date of the concrete CEP example. -/
theorem cepMk2Eval : mkDate ((udCEP.created_at.getD dNowJun).year +
    (cepiPeriodNumber dNowJun (udCEP.created_at.getD dNowJun) + 1) * 2)
    (udCEP.created_at.getD dNowJun).month (udCEP.created_at.getD dNowJun).day =
    some ⟨2027, 3, 10⟩ := by
  rw [show udCEP.created_at.getD dNowJun = ⟨2023, 3, 10⟩ from rfl, cepn1]
  rfl

/-- C5: the CEP/ECA period index is the floor of elapsed days over 365.25
halved; the period starts at the anchor shifted forward `2n` calendar
years, ends the day before the anchor shifted `2(n+1)` years, clamped to
`now` when in the future; and the spec's concrete example evaluates to
period index 1 with window `[2025-03-10, 2025-06-01]`. -/
theorem C5_cepi_period :
    (∀ now a, cepiPeriodNumber now a =
      ⌊((toOrdinal now - toOrdinal a : ℤ) : ℚ) / 365.25 / 2⌋) ∧
    (∀ name now u ud db r,
      calculate_cepi_requirements now u (some ud) db name = .ok (some r) →
      (mkDate ((ud.created_at.getD now).year +
          cepiPeriodNumber now (ud.created_at.getD now) * 2)
        (ud.created_at.getD now).month (ud.created_at.getD now).day =
          some r.period_start ∧
       (mkDate ((ud.created_at.getD now).year +
          (cepiPeriodNumber now (ud.created_at.getD now) + 1) * 2)
        (ud.created_at.getD now).month (ud.created_at.getD now).day).isSome = true ∧
       (∀ pe, mkDate ((ud.created_at.getD now).year +
          (cepiPeriodNumber now (ud.created_at.getD now) + 1) * 2)
          (ud.created_at.getD now).month (ud.created_at.getD now).day = some pe →
         r.period_end = if dlt now (predDate pe) then now else predDate pe))) ∧
    cepiPeriodNumber dNowJun ⟨2023, 3, 10⟩ = 1 ∧
    Except.map (Option.map (fun r => (r.period_start, r.period_end)))
      (calculate_cepi_requirements dNowJun cUser (some udCEP) [] "CEP") =
      .ok (some (⟨2025, 3, 10⟩, ⟨2025, 6, 1⟩)) := by
  refine ⟨fun _ _ => rfl, ?_, cepn1, ?_⟩
  · intro name now u ud db r h
    obtain ⟨ud', heq, hdes, hb⟩ := cepi_inv h
    have hud : ud' = ud := (Option.some.inj heq).symm
    subst hud
    obtain ⟨ps, pe, h1, h2, rfl⟩ := cepiBuild_inv hb
    refine ⟨h1, ?_, ?_⟩
    · rw [h2]
      rfl
    · intro pe' hpe'
      rw [h2] at hpe'
      have hpe : pe' = pe := (Option.some.inj hpe').symm
      subst hpe
      rfl
  · rw [cepEval]
    rfl

/-- C5 witness: the general CEP period property at the concrete example
anchor 2023-03-10 and `now = 2025-06-01`. -/
theorem C5_cepi_period_witness :
    mkDate ((udCEP.created_at.getD dNowJun).year +
        cepiPeriodNumber dNowJun (udCEP.created_at.getD dNowJun) * 2)
      (udCEP.created_at.getD dNowJun).month (udCEP.created_at.getD dNowJun).day =
      some (cepiResult "CEP" dNowJun cUser.id
        ⟨2025, 3, 10⟩ ⟨2027, 3, 10⟩ []).period_start ∧
    (cepiResult "CEP" dNowJun cUser.id ⟨2025, 3, 10⟩ ⟨2027, 3, 10⟩ []).period_end =
      (if dlt dNowJun (predDate ⟨2027, 3, 10⟩) then dNowJun
       else predDate ⟨2027, 3, 10⟩) :=
  ⟨(C5_cepi_period.2.1 "CEP" dNowJun cUser udCEP []
      (cepiResult "CEP" dNowJun cUser.id ⟨2025, 3, 10⟩ ⟨2027, 3, 10⟩ []) cepEval).1,
   (C5_cepi_period.2.1 "CEP" dNowJun cUser udCEP []
      (cepiResult "CEP" dNowJun cUser.id ⟨2025, 3, 10⟩ ⟨2027, 3, 10⟩ []) cepEval).2.2
     ⟨2027, 3, 10⟩ cepMk2Eval⟩

/-- C6: the NAPFA calculator returns `none` exactly for non-members or
absent join dates; otherwise the cycle is the even/odd 2-year window and
the thresholds follow the join-date tiers (60/30, 45/30, 30/30, 15/15). -/
theorem C6_napfa_tiers :
    (∀ now u db, u.is_napfa_member = false ∨ u.napfa_join_date = none →
      calculate_napfa_requirements now u db = none) ∧
    (∀ now u db jd, u.is_napfa_member = true → u.napfa_join_date = some jd →
      calculate_napfa_requirements now u db = some (napfaResult now u.id jd db)) ∧
    (∀ y : Int, (y % 2 = 0 → napfaCycleStartYear y = y) ∧
      (y % 2 ≠ 0 → napfaCycleStartYear y = y - 1)) ∧
    (∀ now u db jd r, u.napfa_join_date = some jd →
      calculate_napfa_requirements now u db = some r →
      (r.cycle_start = ⟨napfaCycleStartYear now.year, 1, 1⟩ ∧
       r.cycle_end = ⟨napfaCycleStartYear now.year + 1, 12, 31⟩ ∧
       (dle jd ⟨napfaCycleStartYear now.year, 6, 30⟩ = true →
         r.total_required = 60 ∧ r.napfa_approved_required = 30) ∧
       (dle jd ⟨napfaCycleStartYear now.year, 6, 30⟩ = false →
        dle jd ⟨napfaCycleStartYear now.year, 12, 31⟩ = true →
         r.total_required = 45 ∧ r.napfa_approved_required = 30) ∧
       (dle jd ⟨napfaCycleStartYear now.year, 6, 30⟩ = false →
        dle jd ⟨napfaCycleStartYear now.year, 12, 31⟩ = false →
        dle jd ⟨napfaCycleStartYear now.year + 1, 6, 30⟩ = true →
         r.total_required = 30 ∧ r.napfa_approved_required = 30) ∧
       (dle jd ⟨napfaCycleStartYear now.year, 6, 30⟩ = false →
        dle jd ⟨napfaCycleStartYear now.year, 12, 31⟩ = false →
        dle jd ⟨napfaCycleStartYear now.year + 1, 6, 30⟩ = false →
         r.total_required = 15 ∧ r.napfa_approved_required = 15))) := by
  refine ⟨?_, ?_, ?_, ?_⟩
  · intro now u db h
    rcases h with hm | hj
    · simp [calculate_napfa_requirements, hm]
    · simp [calculate_napfa_requirements, hj]
  · intro now u db jd hm hj
    simp [calculate_napfa_requirements, hm, hj]
  · intro y
    constructor
    · intro h
      simp [napfaCycleStartYear, h]
    · intro h
      simp [napfaCycleStartYear, h]
  · intro now u db jd r hj h
    obtain ⟨jd', hm, hj', rfl⟩ := napfa_inv h
    rw [hj] at hj'
    have hje : jd = jd' := Option.some.inj hj'
    subst hje
    refine ⟨rfl, rfl, ?_, ?_, ?_, ?_⟩
    · intro h1
      constructor <;> simp [napfaResult, h1]
    · intro h1 h2
      constructor <;> simp [napfaResult, h1, h2]
    · intro h1 h2 h3
      constructor <;> simp [napfaResult, h1, h2, h3]
    · intro h1 h2 h3
      constructor <;> simp [napfaResult, h1, h2, h3]

/-- C6 witness: a NAPFA member who joined 2024-04-01, evaluated during the
2024-2025 cycle: tier one applies (60 total, 30 NAPFA-approved). -/
theorem C6_napfa_tiers_witness :
    calculate_napfa_requirements dNowJun cUser [] =
      some (napfaResult dNowJun cUser.id ⟨2024, 4, 1⟩ []) ∧
    (napfaResult dNowJun cUser.id ⟨2024, 4, 1⟩ []).total_required = 60 ∧
    (napfaResult dNowJun cUser.id ⟨2024, 4, 1⟩ []).napfa_approved_required = 30 :=
  ⟨C6_napfa_tiers.2.1 dNowJun cUser [] ⟨2024, 4, 1⟩ rfl rfl,
   (C6_napfa_tiers.2.2.2 dNowJun cUser [] ⟨2024, 4, 1⟩
      (napfaResult dNowJun cUser.id ⟨2024, 4, 1⟩ []) rfl
      (C6_napfa_tiers.2.1 dNowJun cUser [] ⟨2024, 4, 1⟩ rfl rfl)).2.2.1 (by decide)⟩

/-- The orchestrator loop appends exactly the non-null calculator results,
provided no invoked calculator raises. -/
theorem orchGo_append (now : Date) (u : User) (db : List CERecord) :
    ∀ (l : List UserDesignation) (acc : List DesigResult),
    (∀ ud ∈ l, ∀ c, DESIGNATION_CALCULATORS ud.designation = some c →
      c now u (some ud) db ≠ .error ()) →
    orchGo now u db l acc = .ok (acc ++ l.filterMap (fun ud =>
      match DESIGNATION_CALCULATORS ud.designation with
      | none => none
      | some c => match c now u (some ud) db with
        | .ok res => res
        | .error _ => none)) := by
  intro l
  induction l with
  | nil =>
    intro acc _
    simp [orchGo]
  | cons ud rest ih =>
    intro acc hok
    have hok' : ∀ x ∈ rest, ∀ c, DESIGNATION_CALCULATORS x.designation = some c →
        c now u (some x) db ≠ .error () :=
      fun x hx => hok x (List.mem_cons_of_mem _ hx)
    cases hc : DESIGNATION_CALCULATORS ud.designation with
    | none =>
      have e : orchGo now u db (ud :: rest) acc = orchGo now u db rest acc := by
        simp only [orchGo, hc]
      rw [e, ih acc hok']
      simp [List.filterMap_cons, hc]
    | some c =>
      cases hr : c now u (some ud) db with
      | error e0 =>
        cases e0
        exact absurd hr (hok ud (List.mem_cons_self _ _) c hc)
      | ok res =>
        cases res with
        | none =>
          have e : orchGo now u db (ud :: rest) acc = orchGo now u db rest acc := by
            simp only [orchGo, hc, hr]
          rw [e, ih acc hok']
          simp [List.filterMap_cons, hc, hr]
        | some req =>
          have e : orchGo now u db (ud :: rest) acc =
              orchGo now u db rest (acc ++ [req]) := by
            simp only [orchGo, hc, hr]
          rw [e, ih (acc ++ [req]) hok']
          simp [List.filterMap_cons, hc, hr]

/-- C8: the orchestrator returns, in input order, exactly the non-null
results of the registered calculators (whenever no invoked calculator
raises); a code without a registered calculator (CLE) contributes no entry
and causes no error, and an assignment whose calculator yields null (CFP
with no birth month) is skipped. -/
theorem C8_orchestrator :
    (∀ now u uds db,
      (∀ ud ∈ uds, ∀ c, DESIGNATION_CALCULATORS ud.designation = some c →
        c now u (some ud) db ≠ .error ()) →
      calculate_designation_requirements now u uds db =
        .ok (uds.filterMap (fun ud =>
          match DESIGNATION_CALCULATORS ud.designation with
          | none => none
          | some c => match c now u (some ud) db with
            | .ok res => res
            | .error _ => none))) ∧
    DESIGNATION_CALCULATORS "CLE" = none ∧
    calculate_designation_requirements dNowJun cUser [udCLE, udCFPnoBM] dbC7 =
      .ok [] := by
  refine ⟨?_, rfl, rfl⟩
  intro now u uds db hok
  have h := orchGo_append now u db uds [] hok
  simpa [calculate_designation_requirements] using h

/-- C8 witness: the orchestrator property applied to the empty assignment
list (the no-raise hypothesis holds vacuously). -/
theorem C8_orchestrator_witness :
    calculate_designation_requirements dNowJun cUser [] dbC7 =
      .ok (List.filterMap (fun ud =>
        match DESIGNATION_CALCULATORS ud.designation with
        | none => none
        | some c => match c dNowJun cUser (some ud) dbC7 with
          | .ok res => res
          | .error _ => none) []) :=
  C8_orchestrator.1 dNowJun cUser [] dbC7 (by simp)

/-- C9: with a leap-day anchor (CEP assignment created 2024-02-29) the
CEP period computation raises a `ValueError` (here `.error ()`) — the
shifted year 2026 is not a leap year, so `datetime(2026, 2, 29)` does not
exist; the computation is not total as the spec claims. -/
theorem C9_leap_anchor_raises :
    calculate_cep_requirements ⟨2024, 6, 1⟩ cUser (some udCEPLeap) [] = .error () := by
  have hn : cepiPeriodNumber ⟨2024, 6, 1⟩ ⟨2024, 2, 29⟩ = 0 := by
    have hd : toOrdinal ⟨2024, 6, 1⟩ - toOrdinal ⟨2024, 2, 29⟩ = 93 := by decide
    show (⌊((toOrdinal (⟨2024, 6, 1⟩ : Date) -
      toOrdinal ⟨2024, 2, 29⟩ : ℤ) : ℚ) / 365.25 / 2⌋ : ℤ) = 0
    rw [hd]
    norm_num
  rw [show calculate_cep_requirements ⟨2024, 6, 1⟩ cUser (some udCEPLeap) [] =
    (cepiBuild "CEP" ⟨2024, 6, 1⟩ cUser.id ⟨2024, 2, 29⟩ []).map some from rfl]
  rw [show cepiBuild "CEP" ⟨2024, 6, 1⟩ cUser.id ⟨2024, 2, 29⟩ [] = .error () from by
    unfold cepiBuild
    rw [hn]
    rfl]
  rfl

example : strHasEthics "Professional Ethics 101" = true := by decide
example : strHasEthics "Tax Law" = false := by decide
example : predDate ⟨2025, 6, 1⟩ = ⟨2025, 5, 31⟩ := by decide
example : predDate ⟨2025, 3, 1⟩ = ⟨2025, 2, 28⟩ := by decide
example : predDate ⟨2024, 3, 1⟩ = ⟨2024, 2, 29⟩ := by decide
example : toOrdinal ⟨2025, 6, 1⟩ - toOrdinal ⟨2023, 3, 10⟩ = 814 := by decide
example : toOrdinal ⟨2024, 6, 1⟩ - toOrdinal ⟨2024, 2, 29⟩ = 93 := by decide
example : (⌊((814 : ℚ) / 365.25) / 2⌋ : ℤ) = 1 := by norm_num
example : (⌊((93 : ℚ) / 365.25) / 2⌋ : ℤ) = 0 := by norm_num
example :
    calculate_cfp_requirements ⟨2025, 5, 1⟩ ⟨1, true, none⟩
      (some ⟨"CFP", some 6, none, none⟩) [] = some (cfpResult ⟨2025, 5, 1⟩ 1 6 []) := rfl
